import Mathlib

/-!
The r.report aggregation tables and the v.external projection checks of GRASS:
a shallow embedding of

* `raster/r.report/global.h`: the aggregation record `GSTATS`, the unit table
  `UNITS unit[MAX_UNITS]` and the unit type codes, together with the scan that
  fills `Gstats`, which global.h only declares and the specification
  describes;
* `vector/v.external/proj.c`: `get_layer_proj` and `check_projection`, with the
  GDAL/OGR and GRASS library calls they make taken as parameters and their
  observable actions recorded as a trace of events.
-/

namespace Grass

/-! ## r.report: data model (global.h) -/

/-- A raster category value (`CELL`, a C `int`). Only equality of cells is
used below, so the values are taken in `Int`. -/
abbrev CELL := Int

/-- The record `struct _gstats_` (global.h:29-33): the category tuple, the
derived area and the running cell count. `cats` points to `nlayers` cells; the
`double` area is carried as a rational since no operation below computes with
it. The `long` count is a natural number: it starts at 1, is only incremented,
and stays below the number of cells of the window (`unmasked_cells_le_window`),
which for `int` row and column counts is below 2^62. -/
structure GSTATS where
  cats : List CELL
  area : Rat
  count : Nat
deriving DecidableEq

/-- The macro `#define MAX_UNITS 10` (global.h:39). -/
def MAX_UNITS : Nat := 10

/-- The record `struct _units_` (global.h:40-47). The `double` factor is
carried as a rational; `label` is the pair `label[0]`, `label[1]`. -/
structure UNITS where
  factor : Rat
  type : Int
  len : Int
  dp : Int
  eformat : Int
  label : String × String
deriving DecidableEq

/-- The globals `UNITS unit[MAX_UNITS]` and `int nunits` (global.h:50-51): the
array has the fixed size `MAX_UNITS`, which the type records. -/
structure UnitTable where
  unit : List UNITS
  size_eq : unit.length = MAX_UNITS
  nunits : Int

/-- Is `i` an index inside the array `unit`, i.e. `0 <= i < MAX_UNITS`. -/
def UnitTable.validIndex (_t : UnitTable) (i : Int) : Bool :=
  decide (0 ≤ i) && decide (i < (MAX_UNITS : Int))

/-- The slot `unit[i]`, when `i` is inside the array. -/
def UnitTable.slot (t : UnitTable) (i : Int) : Option UNITS :=
  if 0 ≤ i then t.unit[i.toNat]? else none

/-- The active unit specs: the slots `unit[i]` for `0 <= i < nunits` that the
array really has. -/
def UnitTable.active (t : UnitTable) : List UNITS :=
  t.unit.take t.nunits.toNat

/-- The macro `#define ACRES 1` (global.h:141). -/
def ACRES : Int := 1
/-- The macro `#define HECTARES 2` (global.h:142). -/
def HECTARES : Int := 2
/-- The macro `#define SQ_MILES 3` (global.h:143). -/
def SQ_MILES : Int := 3
/-- The macro `#define PERCENT_COVER 4` (global.h:144). -/
def PERCENT_COVER : Int := 4
/-- The macro `#define CELL_COUNTS 5` (global.h:145). -/
def CELL_COUNTS : Int := 5
/-- The macro `#define SQ_METERS 6` (global.h:146). -/
def SQ_METERS : Int := 6
/-- The macro `#define SQ_KILOMETERS 7` (global.h:147). -/
def SQ_KILOMETERS : Int := 7

/-- The unit type codes that global.h defines, in the order of their
definition. -/
def unit_types : List Int :=
  [ACRES, HECTARES, SQ_MILES, PERCENT_COVER, CELL_COUNTS, SQ_METERS, SQ_KILOMETERS]

/-- A type code names a supported unit when it is one of the defined codes. -/
def supported_unit (type : Int) : Bool := unit_types.contains type

/-! ## r.report: the scan that fills `Gstats`

`stats.c`, `sums.c` and `report.c` are only declared in global.h
(`get_stats`, `count_sum`, `same_cats`, `report`); the definitions of this
section follow the specification of the aggregation engine. -/

/-- Modelled from the spec: `struct Cell_head` is declared in the GRASS headers
and only used here (`window` in global.h:15, `cellhd` and `loc_wind` in
proj.c). `rows` and `cols` are the row and column counts of the window
(section 3 of the specification), `proj` and `zone` the two fields that proj.c
reads and writes. -/
structure Cell_head where
  rows : Int
  cols : Int
  proj : Int
  zone : Int
deriving DecidableEq

/-- Modelled from the spec: the error taxonomy of the engine (section 7). -/
inductive EngineError where
  | MetadataUnreadable
  | GeometryMismatch
  | RowReadError
  | InvalidUnit
deriving DecidableEq

/-- Modelled from the spec: a row source (section 6), `read_row(row_index)`
gives the cells of one row or fails (`none`) on an I/O failure. -/
structure RowSource where
  read_row : Nat → Option (List CELL)

/-- Modelled from the spec: the optional mask (sections 3 and 4.2), an auxiliary
grid and the designated value that marks a cell as excluded. -/
structure Mask where
  source : RowSource
  exclude : CELL

/-- Modelled from the spec: what one scan receives (section 6): the window, one
row source per layer, the optional mask, the no-data sentinel (`NULL_CELL`,
global.h:79), the test recognising a raw no-data cell and the option that
treats no-data as an ordinary category. -/
structure ScanInput where
  window : Cell_head
  layers : List RowSource
  mask : Option Mask
  NULL_CELL : CELL
  is_null : CELL → Bool
  nodata_as_category : Bool

/-- The number of layers (`nlayers`, global.h:27). -/
def ScanInput.nlayers (inp : ScanInput) : Nat := inp.layers.length

/-- Modelled from the spec: equality of two tuples, elementwise over exactly
`nl` positions (section 4.3). -/
def same_tuple (nl : Nat) (x y : List CELL) : Bool :=
  (List.range nl).all fun i => x[i]? == y[i]?

/-- Modelled from the spec: `same_cats(a, b, nl)` (declared at global.h:135,
defined in the absent sums.c): do the entries of index `a` and `b` carry the
same tuple over `nl` positions. -/
def same_cats (Gstats : List GSTATS) (a b : Nat) (nl : Nat) : Bool :=
  match Gstats[a]?, Gstats[b]? with
  | some x, some y => same_tuple nl x.cats y.cats
  | _, _ => false

/-- Modelled from the spec: `count_sum` (declared at global.h:134, defined in
the absent sums.c) as the total of the counts of all entries (section 4.4,
`total_count_across_all_entries`). -/
def count_sum (Gstats : List GSTATS) : Nat :=
  (Gstats.map fun e => e.count).sum

/-- Modelled from the spec: `begin(num_layers)` starts with an empty entry
list (section 4.3); the capacity is not observable. -/
def AggregationTable.begin (_num_layers : Nat) : List GSTATS := []

/-- Modelled from the spec: `observe(tuple)` (section 4.3): a linear scan for an
entry whose tuple equals `tuple` in every position; when found its count is
incremented by one, otherwise a new entry with count 1 is appended. -/
def AggregationTable.observe (num_layers : Nat) (tuple : List CELL) :
    List GSTATS → List GSTATS
  | [] => [{ cats := tuple, area := 0, count := 1 }]
  | e :: es =>
    if same_tuple num_layers e.cats tuple then
      { e with count := e.count + 1 } :: es
    else
      e :: AggregationTable.observe num_layers tuple es

/-- Modelled from the spec: `finish()` hands out the entries in first-seen
order (section 4.3). -/
def AggregationTable.finish (entries : List GSTATS) : List GSTATS := entries

/-- Modelled from the spec: pulling row `r` from one source (section 6). A
failed read is a `RowReadError`; so is a row that is not sized to the window's
column count, which is no row of the window. -/
def fetch_row (cols : Nat) (s : RowSource) (r : Nat) : Except EngineError (List CELL) :=
  match s.read_row r with
  | none => .error .RowReadError
  | some row => if row.length = cols then .ok row else .error .RowReadError

/-- Modelled from the spec: pulling row `r` from every layer, the first failure
aborting the run (section 4.6). -/
def fetch_rows (cols : Nat) : List RowSource → Nat → Except EngineError (List (List CELL))
  | [], _ => .ok []
  | s :: ss, r =>
    match fetch_row cols s r with
    | .error e => .error e
    | .ok row =>
      match fetch_rows cols ss r with
      | .error e => .error e
      | .ok rows => .ok (row :: rows)

/-- Modelled from the spec: pulling row `r` of the mask, when a mask is
configured, together with its exclude value. -/
def fetch_mask_row (cols : Nat) (mask : Option Mask) (r : Nat) :
    Except EngineError (Option (CELL × List CELL)) :=
  match mask with
  | none => .ok none
  | some m =>
    match fetch_row cols m.source r with
    | .error e => .error e
    | .ok row => .ok (some (m.exclude, row))

/-- Modelled from the spec: `is_masked` on the pulled mask row (section 4.2):
false without a mask, otherwise true exactly when the mask's value at the
column is the exclude value. -/
def is_masked (maskrow : Option (CELL × List CELL)) (col : Nat) : Bool :=
  match maskrow with
  | none => false
  | some (exclude, row) => row[col]? == some exclude

/-- Modelled from the spec: the stored category of a raw cell (section 4.6): a
raw no-data value maps to the no-data sentinel unless no-data is treated as an
ordinary category. -/
def category_value (inp : ScanInput) (raw : CELL) : CELL :=
  if inp.is_null raw && !inp.nodata_as_category then inp.NULL_CELL else raw

/-- Modelled from the spec: the tuple of one cell, one category per layer in
layer order (section 3). The default of `getD` is never used on rows sized to
the window. -/
def tuple_at (inp : ScanInput) (rows : List (List CELL)) (col : Nat) : List CELL :=
  rows.map fun row => category_value inp (row.getD col inp.NULL_CELL)

/-- Modelled from the spec: the columns of one row (section 4.6): a masked cell
is skipped, every other cell is observed under its tuple. -/
def scan_cols (inp : ScanInput) (maskrow : Option (CELL × List CELL))
    (rows : List (List CELL)) (colidx : List Nat) (entries : List GSTATS) : List GSTATS :=
  colidx.foldl
    (fun acc col =>
      if is_masked maskrow col then acc
      else AggregationTable.observe inp.nlayers (tuple_at inp rows col) acc)
    entries

/-- Modelled from the spec: the rows of the scan (section 4.6), in order; a row
that cannot be read aborts the run and discards the partial table. -/
def scan_rows (inp : ScanInput) : List Nat → List GSTATS → Except EngineError (List GSTATS)
  | [], entries => .ok entries
  | r :: rs, entries =>
    match fetch_mask_row inp.window.cols.toNat inp.mask r with
    | .error e => .error e
    | .ok maskrow =>
      match fetch_rows inp.window.cols.toNat inp.layers r with
      | .error e => .error e
      | .ok rows =>
        scan_rows inp rs
          (scan_cols inp maskrow rows (List.range inp.window.cols.toNat) entries)

/-- Modelled from the spec: one full scan of the report driver (section 4.6,
`Idle → Scanning → ...`): `begin`, every row from 0 to rows-1 and every column
from 0 to cols-1, then `finish`. -/
def scan (inp : ScanInput) : Except EngineError (List GSTATS) :=
  match scan_rows inp (List.range inp.window.rows.toNat)
      (AggregationTable.begin inp.nlayers) with
  | .error e => .error e
  | .ok entries => .ok (AggregationTable.finish entries)

/-- Modelled from the spec: is the cell at (`r`, `c`) excluded by the mask
(section 3): never without a mask, otherwise when the mask grid holds the
exclude value there. -/
def cell_masked (inp : ScanInput) (r c : Nat) : Bool :=
  match inp.mask with
  | none => false
  | some m =>
    match m.source.read_row r with
    | none => false
    | some row => row[c]? == some m.exclude

/-- The number of cells of the window that are not masked. -/
def unmasked_cells (inp : ScanInput) : Nat :=
  ((List.range inp.window.rows.toNat).map fun r =>
    (List.range inp.window.cols.toNat).countP fun c => !cell_masked inp r c).sum

/-- Can row `r` be pulled from the source with the window's column count. -/
def row_readable (cols : Nat) (s : RowSource) (r : Nat) : Bool :=
  match s.read_row r with
  | some row => row.length == cols
  | none => false

/-- Can row `r` be pulled from every layer and from the mask, if there is one. -/
def scan_row_readable (inp : ScanInput) (r : Nat) : Bool :=
  inp.layers.all (fun s => row_readable inp.window.cols.toNat s r) &&
    (match inp.mask with
     | none => true
     | some m => row_readable inp.window.cols.toNat m.source r)

/-- Can every row of the window be pulled from every layer and from the mask. -/
def scan_readable (inp : ScanInput) : Bool :=
  (List.range inp.window.rows.toNat).all fun r => scan_row_readable inp r

/-- The entries all carry a tuple of `nl` cells and no tuple occurs twice. -/
def TableOk (nl : Nat) (entries : List GSTATS) : Prop :=
  (∀ e ∈ entries, e.cats.length = nl) ∧ (entries.map fun e => e.cats).Nodup


/-! ## v.external: proj.c

The GDAL/OGR objects are described by what the library calls made by proj.c
answer for them; the GRASS library calls are parameters as well. The
observable actions (messages, fatal errors, the creation of a project, `exit`)
are recorded in order as a trace of events. -/

/-- The items of a `struct Key_Value`: `nitems` pairs `key[i]`, `value[i]`. -/
abbrev Key_Value := List (String × String)

/-- What the OSR calls of proj.c answer for one spatial reference handle:
`OSRIsProjected`, `OSRIsGeographic`, the error code and string of
`OSRExportToPrettyWkt`, the string left in `*proj_wkt` by `OSRExportToWktEx`
(or `OSRExportToWkt`, proj.c:97-110), and the authority name and code of a
key. -/
structure OGRSpatialReference where
  OSRIsProjected : Int
  OSRIsGeographic : Int
  OSRExportToPrettyWkt : Int × Option String
  OSRExportToWkt : Option String
  OSRGetAuthorityName : String → Option String
  OSRGetAuthorityCode : String → Option String

/-- A spatial reference handle `OGRSpatialReferenceH`, `none` being `NULL`. -/
abbrev OGRSpatialReferenceH := Option OGRSpatialReference

/-- What the OGR calls of proj.c answer for one layer: its name, its spatial
reference, the index of a geometry column by name (`OGR_L_GetLayerDefn` then
`OGR_FD_GetGeomFieldIndex`) and the spatial reference of the geometry field of
an index (`OGR_FD_GetGeomFieldDefn` then `OGR_GFld_GetSpatialRef`). -/
structure OGRLayer where
  OGR_L_GetName : String
  OGR_L_GetSpatialRef : OGRSpatialReferenceH
  OGR_FD_GetGeomFieldIndex : String → Int
  OGR_GFld_GetSpatialRef : Int → OGRSpatialReferenceH

/-- A dataset handle: the layer that `GDALDatasetGetLayer` gives for an index. -/
structure GDALDataset where
  GDALDatasetGetLayer : Int → OGRLayer

/-- The constants and library functions that proj.c takes from the GDAL and
GRASS headers: `OGRERR_NONE`, the projection codes, `GPJ_osr_to_grass` (its
return value with the window, `proj_info` and `proj_units` it writes),
`G_make_location_crs` (its return value), and the windows and projection
information of the current project. -/
structure GrassLib where
  OGRERR_NONE : Int
  PROJECTION_XY : Int
  PROJECTION_LL : Int
  PROJECTION_UTM : Int
  GPJ_osr_to_grass : Cell_head → OGRSpatialReferenceH → Int →
    Int × Cell_head × Option Key_Value × Option Key_Value
  G_make_location_crs : String → Cell_head → Option Key_Value → Option Key_Value →
    Option String → Option String → Int
  G_get_window : Cell_head
  G_get_default_window : Cell_head
  G_get_projinfo : Option Key_Value
  G_get_projunits : Option Key_Value
  G_compare_projections : Option Key_Value → Option Key_Value → Option Key_Value →
    Option Key_Value → Int

/-- The standard `EXIT_SUCCESS`. -/
def EXIT_SUCCESS : Int := 0

/-- The standard `EXIT_FAILURE`. -/
def EXIT_FAILURE : Int := 1

/-- An observable action of proj.c. -/
inductive Event where
  | G_warning (msg : String)
  | G_important_message (msg : String)
  | G_message (msg : String)
  | G_verbose_message (msg : String)
  | G_fatal_error (msg : String)
  | G_make_location_crs (outloc : String) (cellhd : Cell_head)
      (proj_info proj_units : Option Key_Value) (srid wkt : Option String)
  | G_unset_window
  | G_get_window
  | GDALClose
  | G_free_key_value (kv : Option Key_Value)
  | exit (status : Int)
deriving DecidableEq

/-- How a run ends: the function returns a value, `G_fatal_error` ends the
process, `exit` is called, or the text written into `char error_msg[8096]`
(proj.c:137) runs past the end of the buffer, after which the behaviour of the
C program is undefined. -/
inductive Outcome (α : Type) where
  | returned (a : α)
  | fatal
  | exited (status : Int)
  | overrun
deriving DecidableEq

/-- A run: the events in order and how the run ended. -/
structure Run (α : Type) where
  trace : List Event
  outcome : Outcome α

/-- A run that returns `a` without any event. -/
def Run.pure {α : Type} (a : α) : Run α := ⟨[], .returned a⟩

/-- Sequencing: the continuation runs only when the first run returned. -/
def Run.bind {α β : Type} (r : Run α) (k : α → Run β) : Run β :=
  match r.outcome with
  | .returned a => ⟨r.trace ++ (k a).trace, (k a).outcome⟩
  | .fatal => ⟨r.trace, .fatal⟩
  | .exited status => ⟨r.trace, .exited status⟩
  | .overrun => ⟨r.trace, .overrun⟩

/-- Sequencing of a run without a value and what follows it. -/
def Run.andThen {β : Type} (r : Run Unit) (k : Run β) : Run β := r.bind fun _ => k

/-- One event, then go on. -/
def emit (e : Event) : Run Unit := ⟨[e], .returned ()⟩

/-- The call `G_fatal_error(msg)`: it does not return. -/
def G_fatal_error {α : Type} (msg : String) : Run α := ⟨[.G_fatal_error msg], .fatal⟩

/-- The call `exit(status)`. -/
def exit {α : Type} (status : Int) : Run α := ⟨[.exit status], .exited status⟩

/-- The size of the buffer `char error_msg[8096]` (proj.c:137). -/
def ERROR_MSG_SIZE : Nat := 8096

/-- Does a text, with its terminating NUL byte, fit into `error_msg`. The
`strcat` and `sprintf` calls of proj.c only append, so the text built fits at
every step exactly when the finished text fits. -/
def fits_error_msg (msg : String) : Bool := msg.utf8ByteSize < ERROR_MSG_SIZE

/-- A write past the end of `error_msg`: nothing is known of what follows. -/
def buffer_overrun {α : Type} : Run α := ⟨[], .overrun⟩

/-- Is the event a call of `G_make_location_crs`. -/
def Event.isMakeLocation : Event → Bool
  | .G_make_location_crs _ _ _ _ _ _ => true
  | _ => false

/-- What `get_layer_proj` hands back: its return value and what it leaves in
`*cellhd`, `*proj_info`, `*proj_units`, `*proj_srid` and `*proj_wkt`. -/
structure LayerProj where
  ret : Int
  cellhd : Cell_head
  proj_info : Option Key_Value
  proj_units : Option Key_Value
  proj_srid : Option String
  proj_wkt : Option String
deriving DecidableEq

/-- The spatial reference handle that `get_layer_proj` fetches (proj.c:26-42):
from the geometry column when one is given, `none` when that column is not
found (`igeom < 0`), otherwise from the layer. -/
def layer_hSRS (Ogr_layer : OGRLayer) (geom_col : Option String) :
    Option OGRSpatialReferenceH :=
  match geom_col with
  | some col =>
    let igeom := Ogr_layer.OGR_FD_GetGeomFieldIndex col
    if igeom < 0 then none else some (Ogr_layer.OGR_GFld_GetSpatialRef igeom)
  | none => some Ogr_layer.OGR_L_GetSpatialRef

/-- The report of the WKT string of a handle (proj.c:52-59 and 82-89), the
failure being reported through `G_warning` in the first place and through
`G_important_message` in the second. -/
def wkt_report (lib : GrassLib) (srs : OGRSpatialReference) (failure : String → Event) :
    List Event :=
  if srs.OSRExportToPrettyWkt.1 ≠ lib.OGRERR_NONE then
    [failure "Can't get WKT parameter string"]
  else
    match srs.OSRExportToPrettyWkt.2 with
    | some wkt => [.G_important_message ("WKT definition:\n" ++ wkt)]
    | none => []

/-- The string `*proj_srid` of a valid SRS (proj.c:112-123): authority name
and code of `PROJCS` or `GEOGCS`, when both are non-empty strings. -/
def layer_srid (srs : OGRSpatialReference) : Option String :=
  let authkey := if srs.OSRIsProjected ≠ 0 then "PROJCS" else "GEOGCS"
  match srs.OSRGetAuthorityName authkey with
  | some authname =>
    if authname ≠ "" then
      match srs.OSRGetAuthorityCode authkey with
      | some authcode =>
        if authcode ≠ "" then some (authname ++ ":" ++ authcode) else none
      | none => none
    else none
  | none => none

/-- The function `get_layer_proj` (proj.c:12-127). -/
def get_layer_proj (lib : GrassLib) (Ogr_layer : OGRLayer) (cellhd : Cell_head)
    (geom_col : Option String) (verbose : Int) : Run LayerProj :=
  match layer_hSRS Ogr_layer geom_col with
  | none =>
    G_fatal_error ("Geometry column <" ++ geom_col.getD "" ++
      "> not found in input layer <" ++ Ogr_layer.OGR_L_GetName ++ ">")
  | some hSRS =>
    let conv := lib.GPJ_osr_to_grass cellhd hSRS 0
    let cellhd := conv.2.1
    let proj_info := conv.2.2.1
    let proj_units := conv.2.2.2
    if conv.1 < 0 then
      ⟨.G_warning ("Unable to convert input layer projection information to " ++
          "GRASS format for checking") ::
        (match hSRS with
         | some srs => if verbose ≠ 0 then wkt_report lib srs .G_warning else []
         | none => []),
       .returned ⟨2, cellhd, proj_info, proj_units, none, none⟩⟩
    else
      match hSRS with
      | none =>
        ⟨if verbose ≠ 0 then
            [.G_important_message ("No projection information available for layer <" ++
              Ogr_layer.OGR_L_GetName ++ ">")]
          else [],
         .returned ⟨1, cellhd, proj_info, proj_units, none, none⟩⟩
      | some srs =>
        if srs.OSRIsProjected = 0 ∧ srs.OSRIsGeographic = 0 then
          ⟨.G_important_message ("Projection for layer <" ++ Ogr_layer.OGR_L_GetName ++
              "> does not contain a valid SRS") ::
            (if verbose ≠ 0 then wkt_report lib srs .G_important_message else []),
           .returned ⟨2, cellhd, proj_info, proj_units, none, none⟩⟩
        else
          ⟨[], .returned ⟨0, cellhd, proj_info, proj_units, layer_srid srs,
            srs.OSRExportToWkt⟩⟩

/-- The decimal text of an `int` (`%d`). -/
def fmt_d (n : Int) : String := toString n

/-- The lines `key: value` of a `struct Key_Value` (the loops at proj.c:244-248,
273-276, 342-346 and 352-355). -/
def fmt_key_value (kv : Key_Value) : String :=
  kv.foldl (fun acc item => acc ++ item.1 ++ ": " ++ item.2 ++ "\n") ""

/-- The line describing a projection code when no PROJ_INFO is at hand
(proj.c:253-268 for `who = "Project"`, 280-294 for `who = "Dataset"`). -/
def fmt_proj (lib : GrassLib) (who : String) (proj zone : Int) : String :=
  if proj = lib.PROJECTION_XY then
    who ++ " proj = " ++ fmt_d proj ++ " (unreferenced/unknown)\n"
  else if proj = lib.PROJECTION_LL then
    who ++ " proj = " ++ fmt_d proj ++ " (lat/long)\n"
  else if proj = lib.PROJECTION_UTM then
    who ++ " proj = " ++ fmt_d proj ++ " (UTM), zone = " ++ fmt_d zone ++ "\n"
  else
    who ++ " proj = " ++ fmt_d proj ++ " (unknown), zone = " ++ fmt_d zone ++ "\n"

/-- The `switch (err)` of proj.c:301-335. -/
def fmt_difference (err : Int) : String :=
  if err = -1 then "proj\n"
  else if err = -2 then "units\n"
  else if err = -3 then "datum\n"
  else if err = -4 then "ellps, a, es\n"
  else if err = -5 then "zone\n"
  else if err = -6 then "south\n"
  else if err = -7 then "x_0\n"
  else if err = -8 then "y_0\n"
  else if err = -9 then "lon_0\n"
  else if err = -10 then "lat_0\n"
  else if err = -11 then "lat_1, lat2\n"
  else ""

/-- The text that proj.c:235-367 appends into `error_msg` when the reference
systems do not match. Whether it fits into the buffer is tested where it is
built, in `compare_project`. -/
def mismatch_message (lib : GrassLib) (loc_wind cellhd : Cell_head)
    (loc_proj_info loc_proj_units proj_info proj_units : Option Key_Value)
    (err check_only : Int) : String :=
  let head := "Coordinate reference system of dataset does not" ++
    " appear to match current project.\n\n"
  let body :=
    if loc_wind.proj ≠ cellhd.proj ∨ err ≠ -2 then
      (match loc_proj_info with
        | some kv => "Project PROJ_INFO is:\n" ++ fmt_key_value kv ++ "\n"
        | none => "Project PROJ_INFO is:\n" ++
            fmt_proj lib "Project" loc_wind.proj cellhd.zone) ++
      (match proj_info with
        | some kv => "Dataset PROJ_INFO is:\n" ++ fmt_key_value kv
        | none => "Dataset PROJ_INFO is:\n" ++
            fmt_proj lib "Dataset" cellhd.proj cellhd.zone) ++
      (if loc_wind.proj ≠ cellhd.proj then "\nDifference in: proj\n"
        else "\nDifference in: " ++ fmt_difference err)
    else
      (match loc_proj_units with
        | some kv => "Project PROJ_UNITS is:\n" ++ fmt_key_value kv ++ "\n"
        | none => "") ++
      (match proj_units with
        | some kv => "Dataset PROJ_UNITS is:\n" ++ fmt_key_value kv
        | none => "")
  let hint :=
    if check_only = 0 then
      "\nIn case of no significant differences " ++
      "in the coordinate reference system definitions," ++
      " use the -o flag to ignore them and use" ++
      " current project definition.\n" ++
      "Consider generating a new project from " ++
      "the input dataset using " ++
      "the 'project' parameter.\n"
    else ""
  head ++ body ++ hint

/-- The branch `outloc != NULL` of `check_projection` (proj.c:161-184): no
project is made when `get_layer_proj` reported trouble. The value is the
window left in `*cellhd`. -/
def create_project (lib : GrassLib) (lp : LayerProj) (outloc : String)
    (create_only : Int) : Run Cell_head :=
  let made : Run Cell_head :=
    if lp.ret ≠ 0 then
      G_fatal_error ("Unable to convert input map CRS to GRASS " ++
        "format; cannot create new project.")
    else
      (emit (.G_make_location_crs outloc lp.cellhd lp.proj_info lp.proj_units
          lp.proj_srid lp.proj_wkt)).andThen
      ((if 0 ≠ lib.G_make_location_crs outloc lp.cellhd lp.proj_info lp.proj_units
            lp.proj_srid lp.proj_wkt then
          G_fatal_error ("Unable to create new project <" ++ outloc ++ ">")
        else Run.pure ()).andThen
      ((emit (.G_message ("Project <" ++ outloc ++ "> created"))).andThen
      ((emit .G_unset_window).andThen
      ((emit .G_get_window).andThen
      (Run.pure lib.G_get_window)))))
  made.bind fun cellhd =>
    if create_only ≠ 0 then
      (emit .GDALClose).andThen (exit EXIT_SUCCESS)
    else Run.pure cellhd

/-- The branch `outloc == NULL` of `check_projection` (proj.c:185-393): the
reference system of the dataset is compared with the one of the current
project. The value is the window left in `*cellhd`. The two fixed texts copied
into `error_msg` at proj.c:196-198 are short; the mismatch text, whose length
depends on the PROJ_INFO and PROJ_UNITS items, is tested against the size of the
buffer before it is used. -/
def compare_project (lib : GrassLib) (lp : LayerProj) (override check_only : Int) :
    Run Cell_head :=
  let override : Int := if check_only ≠ 0 ∧ override ≠ 0 then 0 else override
  let unreadable : Run Unit :=
    if lp.ret = 2 then
      let error_msg := "Unable to convert input map projection information " ++
        "to GRASS format."
      if override ≠ 0 then emit (.G_warning error_msg)
      else (emit .GDALClose).andThen (G_fatal_error error_msg)
    else Run.pure ()
  unreadable.andThen (
    let loc_wind := lib.G_get_default_window
    let loc_proj_info : Option Key_Value :=
      if loc_wind.proj ≠ lib.PROJECTION_XY then lib.G_get_projinfo else none
    let loc_proj_units : Option Key_Value :=
      if loc_wind.proj ≠ lib.PROJECTION_XY then lib.G_get_projunits else none
    let checked : Run Cell_head :=
      if override ≠ 0 then
        (emit (.G_message "Over-riding projection check")).andThen
          (Run.pure { lp.cellhd with proj := loc_wind.proj, zone := loc_wind.zone })
      else
        let err : Int :=
          if loc_wind.proj ≠ lp.cellhd.proj then 0
          else lib.G_compare_projections loc_proj_info loc_proj_units
            lp.proj_info lp.proj_units
        if loc_wind.proj ≠ lp.cellhd.proj ∨ err ≠ 1 then
          let error_msg := mismatch_message lib loc_wind lp.cellhd loc_proj_info
            loc_proj_units lp.proj_info lp.proj_units err check_only
          if !fits_error_msg error_msg then buffer_overrun
          else if check_only ≠ 0 then
            (emit (.G_message error_msg)).andThen
              ((emit .GDALClose).andThen (exit EXIT_FAILURE))
          else G_fatal_error error_msg
        else
          let matched := "Coordinate reference system of input dataset and current " ++
            "project appear to match"
          if check_only ≠ 0 then
            (emit (.G_message matched)).andThen
              ((emit .GDALClose).andThen (exit EXIT_SUCCESS))
          else
            (emit (.G_verbose_message matched)).andThen (Run.pure lp.cellhd)
    checked.bind fun cellhd =>
      (emit (.G_free_key_value loc_proj_units)).andThen
        ((emit (.G_free_key_value loc_proj_info)).andThen (Run.pure cellhd)))

/-- The function `check_projection` (proj.c:130-396). The value of a run that
returns is the window left in `*cellhd`. -/
def check_projection (lib : GrassLib) (cellhd : Cell_head) (hDS : GDALDataset)
    (layer : Int) (geom_col : Option String) (outloc : Option String)
    (create_only override check_only : Int) : Run Cell_head :=
  let Ogr_layer := hDS.GDALDatasetGetLayer layer
  (get_layer_proj lib Ogr_layer cellhd geom_col 1).bind fun lp =>
    ((match outloc with
      | some outloc => create_project lib lp outloc create_only
      | none => compare_project lib lp override check_only)).bind fun cellhd =>
    (emit (.G_free_key_value lp.proj_units)).andThen
      ((emit (.G_free_key_value lp.proj_info)).andThen (Run.pure cellhd))

/-- The calls of `G_make_location_crs` in a trace, in order. -/
def make_location_calls (trace : List Event) : List Event :=
  trace.filter Event.isMakeLocation

/-! ## Sample inputs -/

/-- A row source over a grid given by its rows; a row outside the grid cannot
be read. -/
def grid_source (g : List (List CELL)) : RowSource := ⟨fun r => g[r]?⟩

/-- Scenario B of the specification: two layers over a 1×3 window, no mask. -/
def scenarioB : ScanInput :=
  { window := ⟨1, 3, 0, 0⟩
    layers := [grid_source [[1, 1, 2]], grid_source [[5, 6, 5]]]
    mask := none
    NULL_CELL := -2147483648
    is_null := fun v => v == -2147483648
    nodata_as_category := false }

/-- Scenario C of the specification: one layer over a 2×2 window, the mask
excluding the second cell of the first row. -/
def scenarioC : ScanInput :=
  { window := ⟨2, 2, 0, 0⟩
    layers := [grid_source [[1, 1], [2, 1]]]
    mask := some ⟨grid_source [[1, 0], [1, 1]], 0⟩
    NULL_CELL := -2147483648
    is_null := fun v => v == -2147483648
    nodata_as_category := false }

/-- A unit table with three active units. -/
def sample_units : UnitTable :=
  { unit := List.replicate 10 ⟨1, CELL_COUNTS, 10, 0, 0, ("cell", "cells")⟩
    size_eq := rfl
    nunits := 3 }

/-- A spatial reference with the given answers of `OSRIsProjected` and
`OSRIsGeographic`. -/
def sample_srs (projected geographic : Int) : OGRSpatialReference :=
  { OSRIsProjected := projected
    OSRIsGeographic := geographic
    OSRExportToPrettyWkt := (0, some "GEOGCS[]")
    OSRExportToWkt := some "GEOGCRS[]"
    OSRGetAuthorityName := fun _ => some "EPSG"
    OSRGetAuthorityCode := fun _ => some "4326" }

/-- A layer without geometry columns and with the given spatial reference. -/
def sample_layer (hSRS : OGRSpatialReferenceH) : OGRLayer :=
  { OGR_L_GetName := "roads"
    OGR_L_GetSpatialRef := hSRS
    OGR_FD_GetGeomFieldIndex := fun _ => -1
    OGR_GFld_GetSpatialRef := fun _ => none }

/-- A dataset whose layers all are `sample_layer hSRS`. -/
def sample_dataset (hSRS : OGRSpatialReferenceH) : GDALDataset :=
  { GDALDatasetGetLayer := fun _ => sample_layer hSRS }

/-- A library whose `GPJ_osr_to_grass` returns `conv` and leaves the window
untouched, and whose `G_make_location_crs` succeeds. -/
def sample_lib (conv : Int) : GrassLib :=
  { OGRERR_NONE := 0
    PROJECTION_XY := 0
    PROJECTION_LL := 3
    PROJECTION_UTM := 1
    GPJ_osr_to_grass := fun cellhd _ _ => (conv, cellhd, some [("proj", "ll")], none)
    G_make_location_crs := fun _ _ _ _ _ _ => 0
    G_get_window := ⟨10, 10, 3, 0⟩
    G_get_default_window := ⟨10, 10, 3, 0⟩
    G_get_projinfo := some [("proj", "ll")]
    G_get_projunits := none
    G_compare_projections := fun _ _ _ _ => 1 }

end Grass

namespace Grass

/-! ## r.report: properties of the scan -/

theorem count_sum_observe (nl : Nat) (t : List CELL) (entries : List GSTATS) :
    count_sum (AggregationTable.observe nl t entries) = count_sum entries + 1 := by
  induction entries with
  | nil => simp [AggregationTable.observe, count_sum]
  | cons e es ih =>
    unfold AggregationTable.observe
    split
    · simp [count_sum]; omega
    · simp only [count_sum, List.map_cons, List.sum_cons] at ih ⊢
      omega

theorem count_sum_scan_cols (inp : ScanInput) (maskrow : Option (CELL × List CELL))
    (rows : List (List CELL)) (colidx : List Nat) (entries : List GSTATS) :
    count_sum (scan_cols inp maskrow rows colidx entries)
      = count_sum entries + colidx.countP (fun c => !is_masked maskrow c) := by
  induction colidx generalizing entries with
  | nil => simp [scan_cols]
  | cons c cs ih =>
    have hstep := ih (if is_masked maskrow c then entries
      else AggregationTable.observe inp.nlayers (tuple_at inp rows c) entries)
    simp only [scan_cols, List.foldl_cons] at hstep ⊢
    rw [hstep]
    by_cases hm : is_masked maskrow c = true
    · simp [hm]
    · simp [hm, count_sum_observe]; omega

theorem fetch_row_length {cols : Nat} {s : RowSource} {r : Nat} {row : List CELL}
    (h : fetch_row cols s r = .ok row) : s.read_row r = some row ∧ row.length = cols := by
  unfold fetch_row at h
  split at h
  · cases h
  · split at h
    · cases h; exact ⟨by assumption, by assumption⟩
    · cases h

theorem is_masked_fetch (inp : ScanInput) (cols r c : Nat)
    (maskrow : Option (CELL × List CELL))
    (h : fetch_mask_row cols inp.mask r = .ok maskrow) :
    is_masked maskrow c = cell_masked inp r c := by
  unfold fetch_mask_row at h
  unfold cell_masked
  split at h
  · cases h; simp [is_masked]
  · split at h
    · cases h
    · rename_i m _ row hrow
      cases h
      have := (fetch_row_length hrow).1
      simp [is_masked, this]

theorem count_sum_scan_rows (inp : ScanInput) (rs : List Nat) (entries out : List GSTATS)
    (h : scan_rows inp rs entries = .ok out) :
    count_sum out = count_sum entries +
      (rs.map fun r =>
        (List.range inp.window.cols.toNat).countP fun c => !cell_masked inp r c).sum := by
  induction rs generalizing entries with
  | nil => simp [scan_rows] at h; simp [h]
  | cons r rs ih =>
    unfold scan_rows at h
    split at h
    · cases h
    · rename_i maskrow hmask
      split at h
      · cases h
      · rename_i rows hrows
        have hrec := ih _ h
        rw [hrec, count_sum_scan_cols]
        have hm : (fun c => !is_masked maskrow c) = (fun c => !cell_masked inp r c) := by
          funext c; rw [is_masked_fetch inp _ r c maskrow hmask]
        simp only [List.map_cons, List.sum_cons, hm]
        omega

theorem scan_ok {inp : ScanInput} {Gstats : List GSTATS} (h : scan inp = .ok Gstats) :
    scan_rows inp (List.range inp.window.rows.toNat) [] = .ok Gstats := by
  unfold scan at h
  split at h
  · cases h
  · rename_i entries he
    cases h
    simpa [AggregationTable.begin, AggregationTable.finish] using he

theorem fetch_row_ok {cols : Nat} {s : RowSource} {r : Nat}
    (h : row_readable cols s r = true) : ∃ row, fetch_row cols s r = .ok row := by
  unfold row_readable at h
  unfold fetch_row
  split at h
  · rename_i row hrow
    have hlen : row.length = cols := by simpa using h
    exact ⟨row, by simp [hrow, hlen]⟩
  · cases h

theorem fetch_rows_ok {cols : Nat} {ss : List RowSource} {r : Nat}
    (h : ss.all (fun s => row_readable cols s r) = true) :
    ∃ rows, fetch_rows cols ss r = .ok rows := by
  induction ss with
  | nil => exact ⟨[], rfl⟩
  | cons s ss ih =>
    simp only [List.all_cons, Bool.and_eq_true] at h
    obtain ⟨row, hrow⟩ := fetch_row_ok h.1
    obtain ⟨rows, hrows⟩ := ih h.2
    exact ⟨row :: rows, by simp [fetch_rows, hrow, hrows]⟩

theorem fetch_mask_row_ok {cols : Nat} {mask : Option Mask} {r : Nat}
    (h : (match mask with
      | none => true
      | some m => row_readable cols m.source r) = true) :
    ∃ maskrow, fetch_mask_row cols mask r = .ok maskrow := by
  cases mask with
  | none => exact ⟨none, rfl⟩
  | some m =>
    obtain ⟨row, hrow⟩ := fetch_row_ok h
    exact ⟨some (m.exclude, row), by simp [fetch_mask_row, hrow]⟩

theorem scan_rows_finishes (inp : ScanInput) (rs : List Nat) (entries : List GSTATS)
    (h : ∀ r ∈ rs, scan_row_readable inp r = true) :
    ∃ out, scan_rows inp rs entries = .ok out := by
  induction rs generalizing entries with
  | nil => exact ⟨entries, rfl⟩
  | cons r rs ih =>
    have hr := h r (List.mem_cons_self _ _)
    simp only [scan_row_readable, Bool.and_eq_true] at hr
    obtain ⟨rows, hrows⟩ := fetch_rows_ok hr.1
    obtain ⟨maskrow, hmask⟩ := fetch_mask_row_ok hr.2
    obtain ⟨out, hout⟩ := ih
      (scan_cols inp maskrow rows (List.range inp.window.cols.toNat) entries)
      (fun r' hr' => h r' (List.mem_cons_of_mem _ hr'))
    exact ⟨out, by simp only [scan_rows, hmask, hrows, hout]⟩

/-- The scan finishes whenever every row of the window can be pulled from
every layer and from the mask. -/
theorem scan_finishes (inp : ScanInput) (h : scan_readable inp = true) :
    ∃ Gstats, scan inp = .ok Gstats := by
  simp only [scan_readable, List.all_eq_true] at h
  obtain ⟨out, hout⟩ := scan_rows_finishes inp (List.range inp.window.rows.toNat)
    (AggregationTable.begin inp.nlayers) h
  exact ⟨AggregationTable.finish out, by simp only [scan, hout]⟩

theorem sum_map_le (rs : List Nat) (f : Nat → Nat) (bound : Nat)
    (h : ∀ r, f r ≤ bound) : (rs.map f).sum ≤ rs.length * bound := by
  induction rs with
  | nil => simp
  | cons r rs ih =>
    have hr := h r
    simp only [List.map_cons, List.sum_cons, List.length_cons, Nat.succ_mul]
    omega

/-- The cells that are not masked are at most the cells of the window. -/
theorem unmasked_cells_le_window (inp : ScanInput) :
    unmasked_cells inp ≤ inp.window.rows.toNat * inp.window.cols.toNat := by
  have h := sum_map_le (List.range inp.window.rows.toNat)
    (fun r => (List.range inp.window.cols.toNat).countP fun c => !cell_masked inp r c)
    inp.window.cols.toNat
    (fun r => by
      have := List.countP_le_length (fun c => !cell_masked inp r c)
        (l := List.range inp.window.cols.toNat)
      simpa using this)
  simpa [unmasked_cells] using h

theorem same_tuple_iff {nl : Nat} {x y : List CELL} (hx : x.length = nl)
    (hy : y.length = nl) : same_tuple nl x y = true ↔ x = y := by
  constructor
  · intro h
    simp only [same_tuple, List.all_eq_true, List.mem_range, beq_iff_eq] at h
    apply List.ext_getElem?
    intro i
    by_cases hi : i < nl
    · exact h i hi
    · rw [List.getElem?_eq_none (by omega), List.getElem?_eq_none (by omega)]
  · intro h
    subst h
    simp [same_tuple]

theorem same_tuple_false_exists {nl : Nat} {x y : List CELL}
    (h : same_tuple nl x y = false) : ∃ i, i < nl ∧ x[i]? ≠ y[i]? := by
  by_contra hne
  have hall : same_tuple nl x y = true := by
    simp only [same_tuple, List.all_eq_true, List.mem_range, beq_iff_eq]
    intro i hi
    by_contra hxy
    exact hne ⟨i, hi, hxy⟩
  rw [hall] at h
  cases h

theorem observe_cats (nl : Nat) (t : List CELL) (ht : t.length = nl)
    (entries : List GSTATS) (hlen : ∀ e ∈ entries, e.cats.length = nl) :
    (AggregationTable.observe nl t entries).map (fun e => e.cats)
      = if t ∈ entries.map (fun e => e.cats) then entries.map (fun e => e.cats)
        else entries.map (fun e => e.cats) ++ [t] := by
  induction entries with
  | nil => simp [AggregationTable.observe]
  | cons e es ih =>
    have he : e.cats.length = nl := hlen e (List.mem_cons_self _ _)
    have hes : ∀ e' ∈ es, e'.cats.length = nl := fun e' h' =>
      hlen e' (List.mem_cons_of_mem _ h')
    unfold AggregationTable.observe
    by_cases hsame : same_tuple nl e.cats t = true
    · have hEq : e.cats = t := (same_tuple_iff he ht).1 hsame
      rw [if_pos hsame]
      simp [hEq]
    · have hNe : ¬ e.cats = t := fun h => hsame ((same_tuple_iff he ht).2 h)
      have hNe2 : ¬ t = e.cats := fun h => hNe h.symm
      simp only [hsame, Bool.false_eq_true, if_false, List.map_cons, ih hes,
        List.mem_cons, hNe2, false_or]
      split <;> simp

theorem observe_ok (nl : Nat) (t : List CELL) (ht : t.length = nl)
    (entries : List GSTATS) (h : TableOk nl entries) :
    TableOk nl (AggregationTable.observe nl t entries) := by
  obtain ⟨hlen, hnd⟩ := h
  refine ⟨?_, ?_⟩
  · have hall : ∀ c ∈ (AggregationTable.observe nl t entries).map (fun e => e.cats),
        c.length = nl := by
      rw [observe_cats nl t ht entries hlen]
      intro c hc
      split at hc
      · obtain ⟨e, he, rfl⟩ := List.mem_map.1 hc
        exact hlen e he
      · rcases List.mem_append.1 hc with hc | hc
        · obtain ⟨e, he, rfl⟩ := List.mem_map.1 hc
          exact hlen e he
        · simp at hc; subst hc; exact ht
    intro e he
    exact hall e.cats (List.mem_map.2 ⟨e, he, rfl⟩)
  · rw [observe_cats nl t ht entries hlen]
    split
    · exact hnd
    · rename_i hnot
      exact List.Nodup.append hnd (List.nodup_singleton t) (by
        intro a ha hb
        simp at hb
        subst hb
        exact hnot ha)

theorem fetch_rows_length {cols : Nat} {ss : List RowSource} {r : Nat}
    {rows : List (List CELL)} (h : fetch_rows cols ss r = .ok rows) :
    rows.length = ss.length := by
  induction ss generalizing rows with
  | nil => simp [fetch_rows] at h; simp [h]
  | cons s ss ih =>
    unfold fetch_rows at h
    split at h
    · cases h
    · split at h
      · cases h
      · rename_i rest hrest
        cases h
        simp [ih hrest]

theorem scan_cols_ok (inp : ScanInput) (maskrow : Option (CELL × List CELL))
    (rows : List (List CELL)) (hrows : rows.length = inp.nlayers)
    (colidx : List Nat) (entries : List GSTATS) (h : TableOk inp.nlayers entries) :
    TableOk inp.nlayers (scan_cols inp maskrow rows colidx entries) := by
  induction colidx generalizing entries with
  | nil => simpa [scan_cols] using h
  | cons c cs ih =>
    simp only [scan_cols, List.foldl_cons]
    apply ih
    split
    · exact h
    · exact observe_ok _ _ (by simp [tuple_at, hrows]) _ h

theorem scan_rows_ok (inp : ScanInput) (rs : List Nat) (entries out : List GSTATS)
    (hin : TableOk inp.nlayers entries) (h : scan_rows inp rs entries = .ok out) :
    TableOk inp.nlayers out := by
  induction rs generalizing entries with
  | nil => simp [scan_rows] at h; simpa [h] using hin
  | cons r rs ih =>
    unfold scan_rows at h
    split at h
    · cases h
    · split at h
      · cases h
      · rename_i rows hrows
        exact ih _ (scan_cols_ok inp _ rows (fetch_rows_length hrows) _ _ hin) h

theorem scan_table_ok {inp : ScanInput} {Gstats : List GSTATS} (h : scan inp = .ok Gstats) :
    TableOk inp.nlayers Gstats :=
  scan_rows_ok inp _ [] Gstats ⟨by simp, by simp⟩ (scan_ok h)

/-! ## v.external: properties of proj.c -/

theorem Run.bind_returned {α β : Type} {r : Run α} {a : α} (k : α → Run β)
    (h : r.outcome = .returned a) :
    r.bind k = ⟨r.trace ++ (k a).trace, (k a).outcome⟩ := by
  simp [Run.bind, h]

theorem wkt_report_no_make_location (lib : GrassLib) (srs : OGRSpatialReference)
    (failure : String → Event) (hf : ∀ m, (failure m).isMakeLocation = false) :
    make_location_calls (wkt_report lib srs failure) = [] := by
  unfold wkt_report make_location_calls
  split
  · simp [hf]
  · split <;> simp [Event.isMakeLocation]

theorem get_layer_proj_no_make_location (lib : GrassLib) (Ogr_layer : OGRLayer)
    (cellhd : Cell_head) (geom_col : Option String) (verbose : Int) :
    make_location_calls (get_layer_proj lib Ogr_layer cellhd geom_col verbose).trace = [] := by
  have hw := fun srs => wkt_report_no_make_location lib srs Event.G_warning
    (fun _ => rfl)
  have hi := fun srs => wkt_report_no_make_location lib srs Event.G_important_message
    (fun _ => rfl)
  unfold make_location_calls at hw hi ⊢
  unfold get_layer_proj
  split
  · simp [G_fatal_error, Event.isMakeLocation]
  · rename_i hSRS _
    cases hSRS with
    | none =>
      by_cases hneg : (lib.GPJ_osr_to_grass cellhd none 0).1 < 0
      · simp [hneg, Event.isMakeLocation]
      · by_cases hv : verbose = 0 <;> simp [hneg, hv, Event.isMakeLocation]
    | some srs =>
      by_cases hneg : (lib.GPJ_osr_to_grass cellhd (some srs) 0).1 < 0
      · by_cases hv : verbose = 0 <;> simp [hneg, hv, Event.isMakeLocation, hw]
      · by_cases hp : srs.OSRIsProjected = 0 ∧ srs.OSRIsGeographic = 0
        · by_cases hv : verbose = 0 <;> simp [hneg, hv, hp, Event.isMakeLocation, hi]
        · simp only [hneg, if_false, hp]
          simp

theorem get_layer_proj_cases (lib : GrassLib) (Ogr_layer : OGRLayer) (cellhd : Cell_head)
    (geom_col : Option String) (verbose : Int) (hSRS : OGRSpatialReferenceH)
    (hfound : layer_hSRS Ogr_layer geom_col = some hSRS) :
    ∃ lp, (get_layer_proj lib Ogr_layer cellhd geom_col verbose).outcome = .returned lp ∧
      (((lib.GPJ_osr_to_grass cellhd hSRS 0).1 < 0 ∧ lp.ret = 2) ∨
       (¬ (lib.GPJ_osr_to_grass cellhd hSRS 0).1 < 0 ∧ hSRS = none ∧ lp.ret = 1) ∨
       (∃ srs, ¬ (lib.GPJ_osr_to_grass cellhd hSRS 0).1 < 0 ∧ hSRS = some srs ∧
          (srs.OSRIsProjected = 0 ∧ srs.OSRIsGeographic = 0) ∧ lp.ret = 2) ∨
       (∃ srs, ¬ (lib.GPJ_osr_to_grass cellhd hSRS 0).1 < 0 ∧ hSRS = some srs ∧
          ¬ (srs.OSRIsProjected = 0 ∧ srs.OSRIsGeographic = 0) ∧ lp.ret = 0)) := by
  by_cases hneg : (lib.GPJ_osr_to_grass cellhd hSRS 0).1 < 0
  · refine ⟨⟨2, (lib.GPJ_osr_to_grass cellhd hSRS 0).2.1,
      (lib.GPJ_osr_to_grass cellhd hSRS 0).2.2.1,
      (lib.GPJ_osr_to_grass cellhd hSRS 0).2.2.2, none, none⟩, ?_, Or.inl ⟨hneg, rfl⟩⟩
    unfold get_layer_proj
    rw [hfound]
    simp only [hneg, if_true]
  · cases hSRS with
    | none =>
      refine ⟨⟨1, (lib.GPJ_osr_to_grass cellhd none 0).2.1,
        (lib.GPJ_osr_to_grass cellhd none 0).2.2.1,
        (lib.GPJ_osr_to_grass cellhd none 0).2.2.2, none, none⟩, ?_, Or.inr (Or.inl ⟨hneg, rfl, rfl⟩)⟩
      unfold get_layer_proj
      rw [hfound]
      simp only [hneg, if_false]
    | some srs =>
      by_cases hp : srs.OSRIsProjected = 0 ∧ srs.OSRIsGeographic = 0
      · refine ⟨⟨2, (lib.GPJ_osr_to_grass cellhd (some srs) 0).2.1,
          (lib.GPJ_osr_to_grass cellhd (some srs) 0).2.2.1,
          (lib.GPJ_osr_to_grass cellhd (some srs) 0).2.2.2, none, none⟩, ?_,
          Or.inr (Or.inr (Or.inl ⟨srs, hneg, rfl, hp, rfl⟩))⟩
        unfold get_layer_proj
        rw [hfound]
        simp only [hneg, if_false, hp, and_self, if_true]
      · refine ⟨⟨0, (lib.GPJ_osr_to_grass cellhd (some srs) 0).2.1,
          (lib.GPJ_osr_to_grass cellhd (some srs) 0).2.2.1,
          (lib.GPJ_osr_to_grass cellhd (some srs) 0).2.2.2, layer_srid srs,
          srs.OSRExportToWkt⟩, ?_,
          Or.inr (Or.inr (Or.inr ⟨srs, hneg, rfl, hp, rfl⟩))⟩
        unfold get_layer_proj
        rw [hfound]
        simp only [hneg, if_false, hp]

/-- The branch of proj.c:46-63, taken only by a library that breaks the
contract `conversion_never_negative`: the result is 2 whatever the handle. -/
theorem get_layer_proj_conversion_negative (lib : GrassLib) (Ogr_layer : OGRLayer)
    (cellhd : Cell_head) (geom_col : Option String) (verbose : Int)
    (hSRS : OGRSpatialReferenceH) (hfound : layer_hSRS Ogr_layer geom_col = some hSRS)
    (hneg : (lib.GPJ_osr_to_grass cellhd hSRS 0).1 < 0) :
    ∃ lp, (get_layer_proj lib Ogr_layer cellhd geom_col verbose).outcome = .returned lp ∧
      lp.ret = 2 := by
  obtain ⟨lp, hout, hc⟩ :=
    get_layer_proj_cases lib Ogr_layer cellhd geom_col verbose hSRS hfound
  refine ⟨lp, hout, ?_⟩
  rcases hc with ⟨_, h⟩ | ⟨hnn, _, _⟩ | ⟨_, hnn, _, _, _⟩ | ⟨_, hnn, _, _, _⟩
  · exact h
  · exact absurd hneg hnn
  · exact absurd hneg hnn
  · exact absurd hneg hnn

theorem create_project_trouble (lib : GrassLib) (lp : LayerProj) (outloc : String)
    (create_only : Int) (h : lp.ret ≠ 0) :
    create_project lib lp outloc create_only =
      ⟨[.G_fatal_error ("Unable to convert input map CRS to GRASS " ++
        "format; cannot create new project.")], .fatal⟩ := by
  simp [create_project, h, G_fatal_error, Run.bind]

theorem create_project_valid_calls (lib : GrassLib) (lp : LayerProj) (outloc : String)
    (create_only : Int) (h : lp.ret = 0) :
    make_location_calls (create_project lib lp outloc create_only).trace =
      [.G_make_location_crs outloc lp.cellhd lp.proj_info lp.proj_units lp.proj_srid
        lp.proj_wkt] := by
  by_cases hmk : 0 ≠ lib.G_make_location_crs outloc lp.cellhd lp.proj_info lp.proj_units
      lp.proj_srid lp.proj_wkt
  · simp [create_project, h, hmk, G_fatal_error, Run.bind, Run.andThen, Run.pure, emit,
      make_location_calls, Event.isMakeLocation]
  · by_cases hc : create_only = 0
    · simp [create_project, h, hmk, hc, G_fatal_error, Run.bind, Run.andThen, Run.pure,
        emit, make_location_calls, Event.isMakeLocation]
    · simp [create_project, h, hmk, hc, G_fatal_error, Run.bind, Run.andThen, Run.pure,
        emit, exit, make_location_calls, Event.isMakeLocation]

theorem make_location_calls_append (t1 t2 : List Event) :
    make_location_calls (t1 ++ t2) = make_location_calls t1 ++ make_location_calls t2 := by
  simp [make_location_calls]

theorem bind_free_trace (r : Run Cell_head) (kv1 kv2 : Option Key_Value) :
    make_location_calls
      (r.bind fun cellhd =>
        (emit (.G_free_key_value kv1)).andThen
          ((emit (.G_free_key_value kv2)).andThen (Run.pure cellhd))).trace
      = make_location_calls r.trace := by
  unfold Run.bind
  split <;>
    simp [Run.bind, Run.andThen, Run.pure, emit, make_location_calls, Event.isMakeLocation]

/-! ## The claims -/

/-- C1: whenever the scan finishes, the sum of the counts of all aggregation
entries, as totalled by `count_sum`, is the number of cells of the window that
are not masked; this holds for every window, set of layers and mask. -/
theorem count_sum_eq_unmasked_cells (inp : ScanInput) (Gstats : List GSTATS)
    (h : scan inp = .ok Gstats) : count_sum Gstats = unmasked_cells inp := by
  have hsum := count_sum_scan_rows inp _ [] Gstats (scan_ok h)
  simpa [count_sum, unmasked_cells] using hsum

theorem count_sum_eq_unmasked_cells_witness :
    scan scenarioC = .ok [⟨[1], 0, 2⟩, ⟨[2], 0, 1⟩] ∧
      count_sum [⟨[1], 0, 2⟩, ⟨[2], 0, 1⟩] = unmasked_cells scenarioC :=
  ⟨rfl, count_sum_eq_unmasked_cells scenarioC _ rfl⟩

/-- C2: in a finished aggregation entry list every entry carries a tuple of
`nlayers` cells, two entries of indices `a` and `b` are the same group
(`same_cats`) exactly when `a = b`, and the tuples of two different indices
differ in at least one of the `nlayers` positions: no tuple is stored twice. -/
theorem finished_tuples_distinct (inp : ScanInput) (Gstats : List GSTATS)
    (h : scan inp = .ok Gstats) (a b : Nat) (ha : a < Gstats.length)
    (hb : b < Gstats.length) :
    (Gstats[a]).cats.length = inp.nlayers ∧
    (same_cats Gstats a b inp.nlayers = true ↔ a = b) ∧
    (a ≠ b → ∃ i, i < inp.nlayers ∧ (Gstats[a]).cats[i]? ≠ (Gstats[b]).cats[i]?) := by
  obtain ⟨hlen, hnd⟩ := scan_table_ok h
  have hla : (Gstats[a]).cats.length = inp.nlayers := hlen _ (List.getElem_mem ha)
  have hlb : (Gstats[b]).cats.length = inp.nlayers := hlen _ (List.getElem_mem hb)
  have hinj : (Gstats[a]).cats = (Gstats[b]).cats ↔ a = b := by
    constructor
    · intro hc
      have ha2 : a < (Gstats.map fun e => e.cats).length := by simpa using ha
      have hb2 : b < (Gstats.map fun e => e.cats).length := by simpa using hb
      have hEq : (Gstats.map fun e => e.cats)[a] = (Gstats.map fun e => e.cats)[b] := by
        simpa using hc
      exact (List.Nodup.getElem_inj_iff hnd).1 hEq
    · intro hab
      subst hab
      rfl
  have hsame : same_cats Gstats a b inp.nlayers = true ↔ a = b := by
    simp only [same_cats, List.getElem?_eq_getElem ha, List.getElem?_eq_getElem hb]
    rw [same_tuple_iff hla hlb]
    exact hinj
  refine ⟨hla, hsame, ?_⟩
  intro hab
  apply same_tuple_false_exists
  cases hst : same_tuple inp.nlayers (Gstats[a]).cats (Gstats[b]).cats with
  | false => rfl
  | true => exact absurd (hinj.1 ((same_tuple_iff hla hlb).1 hst)) hab

theorem finished_tuples_distinct_witness :
    scan scenarioB = .ok [⟨[1, 5], 0, 1⟩, ⟨[1, 6], 0, 1⟩, ⟨[2, 5], 0, 1⟩] ∧
    (2 = scenarioB.nlayers ∧
     (same_cats [⟨[1, 5], 0, 1⟩, ⟨[1, 6], 0, 1⟩, ⟨[2, 5], 0, 1⟩] 0 2 scenarioB.nlayers = true
        ↔ 0 = 2) ∧
     ((0 : Nat) ≠ 2 → ∃ i, i < scenarioB.nlayers ∧
        ([1, 5] : List CELL)[i]? ≠ ([2, 5] : List CELL)[i]?)) :=
  ⟨rfl, finished_tuples_distinct scenarioB _ rfl 0 2 (by decide) (by decide)⟩

/-- C3: the unit type codes ACRES, HECTARES, SQ_MILES, PERCENT_COVER,
CELL_COUNTS, SQ_METERS and SQ_KILOMETERS are seven pairwise distinct codes,
they are the integers 1 through 7 in this order, and an integer type code names
a supported unit exactly when it lies in 1..7 (so 0 names none). -/
theorem unit_types_one_to_seven :
    unit_types.length = 7 ∧ unit_types.Nodup ∧ unit_types = [1, 2, 3, 4, 5, 6, 7] ∧
    supported_unit 0 = false ∧
    ∀ type : Int, supported_unit type = true ↔ (1 ≤ type ∧ type ≤ 7) := by
  refine ⟨rfl, by decide, rfl, by decide, ?_⟩
  intro type
  simp only [supported_unit, unit_types, ACRES, HECTARES, SQ_MILES, PERCENT_COVER,
    CELL_COUNTS, SQ_METERS, SQ_KILOMETERS, List.contains_iff_exists_mem_beq,
    List.mem_cons, List.mem_singleton, beq_iff_eq]
  constructor
  · rintro ⟨x, hx, rfl⟩
    simp only [List.not_mem_nil, or_false] at hx
    omega
  · rintro ⟨h1, h7⟩
    refine ⟨type, ?_, rfl⟩
    simp only [List.not_mem_nil, or_false]
    omega

/-- C4: the unit table has exactly MAX_UNITS = 10 slots; whenever
`nunits <= MAX_UNITS` every index `i` with `0 <= i < nunits` is a valid index
holding a slot; no index from 10 on holds a slot, and the active units of any
table are at most 10. -/
theorem unit_table_at_most_ten (t : UnitTable) :
    MAX_UNITS = 10 ∧ t.unit.length = 10 ∧
    (∀ i : Int, t.nunits ≤ MAX_UNITS → 0 ≤ i → i < t.nunits →
      t.validIndex i = true ∧ (t.slot i).isSome = true) ∧
    (∀ i : Int, 10 ≤ i → t.validIndex i = false ∧ t.slot i = none) ∧
    t.active.length ≤ 10 := by
  have hsz : t.unit.length = 10 := t.size_eq
  refine ⟨rfl, hsz, ?_, ?_, ?_⟩
  · intro i hn h0 hi
    have hn10 : t.nunits ≤ 10 := by simpa [MAX_UNITS] using hn
    have hlt : i.toNat < t.unit.length := by omega
    refine ⟨?_, ?_⟩
    · simp only [UnitTable.validIndex, MAX_UNITS, Bool.and_eq_true, decide_eq_true_eq]
      constructor
      · exact h0
      · push_cast; omega
    · simp only [UnitTable.slot, h0, if_true, List.getElem?_eq_getElem hlt, Option.isSome_some]
  · intro i hi
    refine ⟨?_, ?_⟩
    · simp only [UnitTable.validIndex, MAX_UNITS, Bool.and_eq_false_iff, decide_eq_false_iff_not]
      right
      push_cast; omega
    · have h0 : 0 ≤ i := by omega
      have hge : t.unit.length ≤ i.toNat := by omega
      simp only [UnitTable.slot, h0, if_true, List.getElem?_eq_none hge]
  · simp only [UnitTable.active, List.length_take]
    omega

theorem unit_table_at_most_ten_witness :
    sample_units.validIndex 2 = true ∧ (sample_units.slot 2).isSome = true :=
  (unit_table_at_most_ten sample_units).2.2.1 2 (by decide) (by decide) (by decide)

/-- C5: when the geometry column, if one is given, is found, `get_layer_proj`
returns; its result is one of 0, 1, 2, and it is 0 exactly when
`GPJ_osr_to_grass` did not return a negative value, the spatial reference handle
is not NULL and the spatial reference is projected or geographic. -/
theorem get_layer_proj_zero_iff (lib : GrassLib) (Ogr_layer : OGRLayer)
    (cellhd : Cell_head) (geom_col : Option String) (verbose : Int)
    (hSRS : OGRSpatialReferenceH) (hfound : layer_hSRS Ogr_layer geom_col = some hSRS) :
    ∃ lp, (get_layer_proj lib Ogr_layer cellhd geom_col verbose).outcome = .returned lp ∧
      (lp.ret = 0 ∨ lp.ret = 1 ∨ lp.ret = 2) ∧
      (lp.ret = 0 ↔
        (¬ (lib.GPJ_osr_to_grass cellhd hSRS 0).1 < 0 ∧
          ∃ srs, hSRS = some srs ∧ (srs.OSRIsProjected ≠ 0 ∨ srs.OSRIsGeographic ≠ 0))) := by
  obtain ⟨lp, hout, hc⟩ :=
    get_layer_proj_cases lib Ogr_layer cellhd geom_col verbose hSRS hfound
  refine ⟨lp, hout, ?_, ?_⟩
  · rcases hc with ⟨_, h⟩ | ⟨_, _, h⟩ | ⟨_, _, _, _, h⟩ | ⟨_, _, _, _, h⟩ <;> simp [h]
  · rcases hc with ⟨hneg, h⟩ | ⟨_, hnone, h⟩ | ⟨srs, _, hsome, hp, h⟩ | ⟨srs, hneg, hsome, hp, h⟩
    · simp [h, hneg]
    · simp [h, hnone]
    · simp [h, hsome, hp]
    · constructor
      · intro _
        refine ⟨hneg, srs, hsome, ?_⟩
        by_cases h1 : srs.OSRIsProjected = 0
        · right; exact fun h2 => hp ⟨h1, h2⟩
        · left; exact h1
      · intro _; exact h

theorem get_layer_proj_zero_iff_witness :
    ∃ lp, (get_layer_proj (sample_lib 2) (sample_layer (some (sample_srs 0 1))) ⟨0, 0, 0, 0⟩
        none 1).outcome = .returned lp ∧
      (lp.ret = 0 ∨ lp.ret = 1 ∨ lp.ret = 2) ∧
      (lp.ret = 0 ↔
        (¬ ((sample_lib 2).GPJ_osr_to_grass ⟨0, 0, 0, 0⟩ (some (sample_srs 0 1)) 0).1 < 0 ∧
          ∃ srs, some (sample_srs 0 1) = some srs ∧
            (srs.OSRIsProjected ≠ 0 ∨ srs.OSRIsGeographic ≠ 0))) :=
  get_layer_proj_zero_iff (sample_lib 2) (sample_layer (some (sample_srs 0 1)))
    ⟨0, 0, 0, 0⟩ none 1 (some (sample_srs 0 1)) rfl

/-- C7: in a call of `check_projection` with `outloc != NULL` in which
`get_layer_proj` returns `lp`: when `lp.ret` is 1 or 2 the run ends in the fatal
error "Unable to convert input map CRS to GRASS format; cannot create new
project." and `G_make_location_crs` is never called; when `lp.ret` is 0,
`G_make_location_crs` is called exactly once, with `outloc` and the fetched
window, `proj_info`, `proj_units`, `srid` and `wkt`. -/
theorem check_projection_new_project (lib : GrassLib) (cellhd : Cell_head)
    (hDS : GDALDataset) (layer : Int) (geom_col : Option String) (outloc : String)
    (create_only override check_only : Int) (lp : LayerProj)
    (hret : (get_layer_proj lib (hDS.GDALDatasetGetLayer layer) cellhd geom_col 1).outcome
      = .returned lp) :
    (lp.ret = 1 ∨ lp.ret = 2 →
      (check_projection lib cellhd hDS layer geom_col (some outloc) create_only override
        check_only).outcome = .fatal ∧
      (check_projection lib cellhd hDS layer geom_col (some outloc) create_only override
        check_only).trace =
        (get_layer_proj lib (hDS.GDALDatasetGetLayer layer) cellhd geom_col 1).trace ++
          [.G_fatal_error ("Unable to convert input map CRS to GRASS " ++
            "format; cannot create new project.")] ∧
      make_location_calls (check_projection lib cellhd hDS layer geom_col (some outloc)
        create_only override check_only).trace = []) ∧
    (lp.ret = 0 →
      make_location_calls (check_projection lib cellhd hDS layer geom_col (some outloc)
        create_only override check_only).trace =
        [.G_make_location_crs outloc lp.cellhd lp.proj_info lp.proj_units lp.proj_srid
          lp.proj_wkt]) := by
  have hnone := get_layer_proj_no_make_location lib (hDS.GDALDatasetGetLayer layer)
    cellhd geom_col 1
  constructor
  · intro htrouble
    have hne : lp.ret ≠ 0 := by
      rcases htrouble with h | h <;> rw [h] <;> decide
    have hrun : check_projection lib cellhd hDS layer geom_col (some outloc) create_only
        override check_only =
        ⟨(get_layer_proj lib (hDS.GDALDatasetGetLayer layer) cellhd geom_col 1).trace ++
          [.G_fatal_error ("Unable to convert input map CRS to GRASS " ++
            "format; cannot create new project.")], .fatal⟩ := by
      unfold check_projection
      simp only []
      rw [Run.bind_returned _ hret, create_project_trouble lib lp outloc create_only hne]
      simp [Run.bind]
    rw [hrun]
    refine ⟨rfl, rfl, ?_⟩
    simp only [make_location_calls_append, hnone]
    simp [make_location_calls, Event.isMakeLocation]
  · intro hzero
    unfold check_projection
    simp only []
    rw [Run.bind_returned _ hret]
    simp only [make_location_calls_append, hnone, List.nil_append, bind_free_trace]
    exact create_project_valid_calls lib lp outloc create_only hzero

theorem check_projection_new_project_witness :
    ((check_projection (sample_lib 1) ⟨0, 0, 0, 0⟩ (sample_dataset none) 0 none
        (some "newproject") 0 0 0).outcome = .fatal ∧
      (check_projection (sample_lib 1) ⟨0, 0, 0, 0⟩ (sample_dataset none) 0 none
        (some "newproject") 0 0 0).trace =
        (get_layer_proj (sample_lib 1) ((sample_dataset none).GDALDatasetGetLayer 0)
          ⟨0, 0, 0, 0⟩ none 1).trace ++
          [.G_fatal_error ("Unable to convert input map CRS to GRASS " ++
            "format; cannot create new project.")] ∧
      make_location_calls (check_projection (sample_lib 1) ⟨0, 0, 0, 0⟩ (sample_dataset none)
        0 none (some "newproject") 0 0 0).trace = []) ∧
    make_location_calls (check_projection (sample_lib 2) ⟨0, 0, 0, 0⟩
        (sample_dataset (some (sample_srs 0 1))) 0 none (some "newproject") 0 0 0).trace =
      [.G_make_location_crs "newproject" ⟨0, 0, 0, 0⟩ (some [("proj", "ll")]) none
        (some "EPSG:4326") (some "GEOGCRS[]")] :=
  ⟨(check_projection_new_project (sample_lib 1) ⟨0, 0, 0, 0⟩ (sample_dataset none) 0 none
      "newproject" 0 0 0 ⟨1, ⟨0, 0, 0, 0⟩, some [("proj", "ll")], none, none, none⟩ rfl).1
      (Or.inl rfl),
   (check_projection_new_project (sample_lib 2) ⟨0, 0, 0, 0⟩
      (sample_dataset (some (sample_srs 0 1))) 0 none "newproject" 0 0 0
      ⟨0, ⟨0, 0, 0, 0⟩, some [("proj", "ll")], none, some "EPSG:4326", some "GEOGCRS[]"⟩
      (by decide)).2 rfl⟩

end Grass
